import Mathlib

/-!
Verification of the fitbit conversational-assistant repository.

This file gives a shallow embedding of the core modules:

* `src/memory/highlight_schema.py` / the identical `HighlightSchema` class in
  `src/memory/database.py` (the copy actually imported by `memory/highlights.py`),
* `src/memory/highlights.py` (eligibility gate, LLM extraction post-processing,
  storage, consolidation),
* `src/api/llm_interface.py` and `src/api/claude_client.py` (error taxonomy and
  request construction),
* `src/memory/raw_data.py` and `src/core/context_assembly.py` (layer loading and
  the health-data prompt section),
* `src/core/conversation_orchestrator.py` (the LangGraph workflow and the
  `chat` entry point).

Python dictionaries coming from `json.loads` are modelled as association lists
with distinct keys; machine floats that only flow through the system untouched
(metric values, insight confidences) are modelled as integers, since no claim
depends on their arithmetic.  Exceptions are modelled with `Except` / `Option`
results, and the effectful collaborators (database session, network, clock) are
modelled as an explicit environment record.
-/

set_option autoImplicit false
set_option maxRecDepth 4000

namespace Fitbit

/-- A JSON value as produced by `json.loads` on the model reply.  `obj` models a
Python dict (keys distinct, insertion order preserved). -/
inductive Json where
  | null
  | bool (b : Bool)
  | num (n : Int)
  | str (s : String)
  | arr (elems : List Json)
  | obj (fields : List (String × Json))

/-- `value is None` in Python. -/
def Json.isNull : Json → Bool
  | .null => true
  | _ => false

/-- `isinstance(data, dict)`. -/
def Json.isObj : Json → Bool
  | .obj _ => true
  | _ => false

/-- The dict fields of a JSON value, when it is a dict. -/
def Json.asObj? : Json → Option (List (String × Json))
  | .obj fields => some fields
  | _ => none

/-- Dict lookup `d[k]` / `d.get(k)` on a modelled Python dict. -/
def getKey? (fields : List (String × Json)) (k : String) : Option Json :=
  (fields.find? (fun p => p.1 == k)).map Prod.snd

/-- `k in d` on a modelled Python dict. -/
def containsKey (fields : List (String × Json)) (k : String) : Bool :=
  fields.any (fun p => p.1 == k)

/-- The keys of `HighlightSchema.STRUCTURED_FIELDS`, in declaration order
(`src/memory/highlight_schema.py` lines 9-70; the copy in
`src/memory/database.py` lists the same twelve fields).  The per-field type,
description and examples only feed the extraction prompt text, so only the key
set is modelled. -/
def structuredFieldNames : List String :=
  ["allergies", "work_schedule", "exercise_preferences", "health_concerns",
   "sleep_schedule", "nutrition_preferences", "stress_sources", "medications",
   "family_health", "goals_mentioned", "communication_style", "motivation_factors"]

/-- `HighlightSchema.validate_structured_data` (`highlight_schema.py` lines 82-92).
`.ok b` models a normal return of the boolean `b`; `.error msg` models a raised
`ValueError`.  A non-dict input returns `False`; a dict input raises exactly when
it has a key outside `STRUCTURED_FIELDS`, and returns `True` otherwise. -/
def validate_structured_data (data : Json) : Except String Bool :=
  match data with
  | .obj fields =>
      let unknown := (fields.map Prod.fst).filter (fun k => !(structuredFieldNames.contains k))
      if unknown.isEmpty then .ok true
      else .error ("Unknown structured fields: " ++ String.intercalate ", " unknown)
  | _ => .ok false

/-- The placeholder normalisation loop of `HighlightsExtractor._extract_with_llm`
(`highlights.py` lines 223-227): the literal strings "null", "" and "None" are
replaced by `None`.  Non-string values never compare equal to those literals. -/
def cleanPlaceholder (v : Json) : Json :=
  match v with
  | .str s => if s = "null" || s = "" || s = "None" then .null else .str s
  | v => v

/-- The result of a successful extraction: the cleaned structured-data dict and
the raw `unstructured_notes` JSON value. -/
def ExtractResult := List (String × Json) × Json

/-- The post-parse logic of `HighlightsExtractor._extract_with_llm`
(`highlights.py` lines 208-235), applied to the already-parsed JSON reply:

* a non-dict reply, or a dict missing `structured_data` / `unstructured_notes`,
  is rejected (in Python these paths end in the explicit key check or in a
  `TypeError` swallowed by the outer generic handler);
* `validate_structured_data` is called on the structured slice; a raised
  `ValueError` is caught and the whole result is discarded;
* when the structured slice is a dict that validated, its placeholder values
  are normalised to null and the result is returned;
* a structured slice that is not a dict makes validation return `False`
  (a value the caller ignores) and then crashes the `.items()` cleanup loop;
  the outer generic handler turns that into a discarded result as well. -/
def extractFromParsed (parsed : Json) : Option ExtractResult := do
  let fields ← parsed.asObj?
  let sd ← getKey? fields "structured_data"
  let notes ← getKey? fields "unstructured_notes"
  match validate_structured_data sd with
  | .error _ => none
  | .ok _ =>
      match sd with
      | .obj sdFields =>
          some (sdFields.map (fun p => (p.1, cleanPlaceholder p.2)), notes)
      | _ => none

/-- `HighlightsExtractor._extract_with_llm` (`highlights.py` lines 180-242).
The LLM round trip, the markdown fence stripping and `json.loads` are
collaborator effects; `llmReplyParsed` is their combined outcome (`none` models
an `LLMError`, an unexpected exception, or a `JSONDecodeError`, each of which
the function catches and turns into `None`). -/
def extract_with_llm (llmReplyParsed : Option Json) : Option ExtractResult :=
  match llmReplyParsed with
  | none => none
  | some parsed => extractFromParsed parsed

/-! ## LLM client (`src/api/llm_interface.py`, `src/api/claude_client.py`) -/

/-- The three exception classes of `api/llm_interface.py`: `LLMError` and its two
subclasses `LLMUnavailableError` and `LLMRateLimitError`. -/
inductive LLMExcClass where
  | llmError
  | llmUnavailableError
  | llmRateLimitError
  deriving DecidableEq, Repr

/-- The direct Python superclass within the taxonomy (`llm_interface.py`
lines 53-70); `LLMError` itself extends only the built-in `Exception`. -/
def superclassOf : LLMExcClass → Option LLMExcClass
  | .llmError => none
  | .llmUnavailableError => some .llmError
  | .llmRateLimitError => some .llmError

/-- `isinstance` over the modelled hierarchy (reflexive, then one step up;
the hierarchy is only two levels deep). -/
def isSubclassOf (a b : LLMExcClass) : Bool :=
  a == b ||
    (match superclassOf a with
     | some p => p == b
     | none => false)

/-- An LLM exception instance: its class plus the `message` and `provider`
arguments of `LLMError.__init__` (whose `str()` is the message). -/
structure LLMExc where
  excClass : LLMExcClass
  message : String
  provider : String

/-- A message of the provider `messages` array: a role/content pair. -/
structure ChatMsg where
  role : String
  content : String
  deriving DecidableEq, Repr

/-- The parameter dict handed to `self.client.messages.create` by
`ClaudeClient.chat` (`api/claude_client.py` lines 64-77).  `system` is absent
when no truthy system prompt was supplied; `temperature` is absent when the
keyword was not passed (its numeric value is opaque to every claim and is
modelled as an integer). -/
structure ApiParams where
  model : String
  max_tokens : Nat
  messages : List ChatMsg
  system : Option String
  temperature : Option Int
  deriving DecidableEq, Repr

/-- The request construction of `ClaudeClient.chat` (`api/claude_client.py`
lines 53-77): start from an empty `messages` list, extend it with the truthy
conversation history, append the user message as the final `user` turn, then
assemble the parameter dict (system prompt only when truthy, default
`max_tokens` 1000, temperature only when supplied). -/
def buildApiParams (model : String) (user_message : String)
    (conversation_history : Option (List ChatMsg)) (system_prompt : Option String)
    (max_tokens : Option Nat) (temperature : Option Int) : ApiParams :=
  let messages := (match conversation_history with
    | some h => h
    | none => []) ++ [⟨"user", user_message⟩]
  { model := model
    max_tokens := max_tokens.getD 1000
    messages := messages
    system := match system_prompt with
      | some s => if s = "" then none else some s
      | none => none
    temperature := temperature }

/-- The possible outcomes of the `anthropic` SDK call inside
`ClaudeClient.chat`: a reply with its content blocks, or one of the SDK
exception classes (`RateLimitError`, `APIConnectionError`, `APIError` — the
latter also covers authentication and malformed-request failures, which are
`APIError` subclasses), or any other exception. -/
inductive ProviderOutcome where
  | success (contentBlocks : List String)
  | rateLimitError (msg : String)
  | apiConnectionError (msg : String)
  | apiError (msg : String)
  | otherException (msg : String)

/-- The error mapping of `ClaudeClient.chat` (`api/claude_client.py`
lines 79-95).  An empty content list makes the method raise
`LLMError("Empty response from Claude")` inside its own `try`, which the
final generic handler re-wraps as
`LLMError("Unexpected error with Claude: Empty response from Claude")`. -/
def claudeChat (outcome : ProviderOutcome) : Except LLMExc String :=
  match outcome with
  | .success blocks =>
      match blocks.head? with
      | some text => .ok text
      | none => .error ⟨.llmError, "Unexpected error with Claude: Empty response from Claude", "claude"⟩
  | .rateLimitError _ => .error ⟨.llmRateLimitError, "Claude rate limit exceeded", "claude"⟩
  | .apiConnectionError _ => .error ⟨.llmUnavailableError, "Cannot connect to Claude API", "claude"⟩
  | .apiError m => .error ⟨.llmError, "Claude API error: " ++ m, "claude"⟩
  | .otherException m => .error ⟨.llmError, "Unexpected error with Claude: " ++ m, "claude"⟩

/-! ## Persistence entities (`src/memory/database.py`) -/

/-- One entry of a `Conversation.messages` JSON column, as written by
`ConversationOrchestrator._update_conversation`: role, content and an ISO
timestamp string. -/
structure StoredMessage where
  role : String
  content : String
  timestamp : String
  deriving DecidableEq, Repr

/-- A `conversations` row.  Columns never read by the claims under proof
(`session_id`, `created_at`, `ended_at`) are omitted. -/
structure Conversation where
  id : Nat
  user_id : Nat
  messages : List StoredMessage
  status : String

/-- A `highlights` row; `structured_data` and `unstructured_notes` are nullable
columns, `extracted_at` is a timestamp (modelled as a number). -/
structure Highlight where
  user_id : Nat
  conversation_id : Nat
  structured_data : Option (List (String × Json))
  unstructured_notes : Option String
  extracted_at : Nat

/-- The slice of database state the extractor and orchestrator touch;
`nextConvId` models the autoincrement primary key handed out by `flush`. -/
structure DB where
  conversations : List Conversation
  highlights : List Highlight
  nextConvId : Nat

/-! ## Highlights extractor (`src/memory/highlights.py`) -/

/-- The greeting stoplist of `should_extract_highlights`
(`highlights.py` line 106). -/
def greeting_phrases : List String :=
  ["hi", "hello", "hey", "good morning", "good evening", "thanks", "thank you",
   "bye", "goodbye"]

/-- The accumulation loop of `should_extract_highlights` (lines 95-98): the
concatenation `" " + content` over the user-role messages. -/
def totalUserContent (msgs : List StoredMessage) : String :=
  msgs.foldl (fun acc m => if m.role == "user" then acc ++ " " ++ m.content else acc) ""

/-- Python `s.strip()`: remove leading and trailing whitespace.  Modelled at
the character-list level (the core position-based string functions do not
reduce inside the kernel). -/
def pyStrip (s : String) : String :=
  ⟨((s.data.dropWhile Char.isWhitespace).reverse.dropWhile Char.isWhitespace).reverse⟩

/-- Python `s.lower()`. -/
def pyLower (s : String) : String :=
  ⟨s.data.map Char.toLower⟩

/-- Worker for `pySplit`: scan the characters, flushing the accumulated word at
each whitespace run. -/
def splitWhitespaceAux : List Char → List Char → List String
  | [], acc => if acc.isEmpty then [] else [(⟨acc.reverse⟩ : String)]
  | c :: rest, acc =>
      if Char.isWhitespace c then
        (if acc.isEmpty then [] else [(⟨acc.reverse⟩ : String)]) ++ splitWhitespaceAux rest []
      else splitWhitespaceAux rest (c :: acc)

/-- Whether `needle` occurs at the start of `haystack` (on character lists). -/
def charsStartWith : List Char → List Char → Bool
  | [], _ => true
  | _ :: _, [] => false
  | a :: as, b :: bs => a == b && charsStartWith as bs

/-- Whether `needle` occurs contiguously anywhere in `haystack`. -/
def charsContain (needle : List Char) : List Char → Bool
  | [] => charsStartWith needle []
  | hd :: tl => charsStartWith needle (hd :: tl) || charsContain needle tl

/-- Python `needle in haystack` on strings (substring test). -/
def isSubstringOf (needle haystack : String) : Bool :=
  charsContain needle.data haystack.data

/-- Python `s.split()`: split on whitespace runs, dropping empty pieces. -/
def pySplit (s : String) : List String :=
  splitWhitespaceAux s.data []

/-- `HighlightsExtractor.should_extract_highlights` (`highlights.py`
lines 65-118): false when a highlight already exists for the conversation,
when the conversation is missing or has no messages, when the stripped user
content is under 20 characters, or when the content is three or fewer words
containing a greeting phrase; true otherwise. -/
def should_extract_highlights (db : DB) (conversation_id : Nat) : Bool :=
  match db.highlights.find? (fun h => h.conversation_id == conversation_id) with
  | some _ => false
  | none =>
    match db.conversations.find? (fun c => c.id == conversation_id) with
    | none => false
    | some conversation =>
      if conversation.messages.isEmpty then false
      else
        let total_user_content := totalUserContent conversation.messages
        if (pyStrip total_user_content).length < 20 then false
        else
          let content_lower := pyStrip (pyLower total_user_content)
          let words := pySplit content_lower
          if words.length ≤ 3 && greeting_phrases.any (fun p => isSubstringOf p content_lower) then
            false
          else true

/-- `HighlightsExtractor._format_conversation_for_analysis` (`highlights.py`
lines 164-178). -/
def format_conversation_for_analysis (messages : List StoredMessage) : String :=
  String.intercalate "\n\n"
    (messages.map (fun m =>
      (if m.role == "user" then "User" else "Assistant") ++ ": " ++ m.content))

/-- The collaborator effects of the extractor and orchestrator: database-read
failures, the model round trips, the persistence commit outcome and the clock.
`extractionReplyParsed` maps the formatted conversation text to the parsed JSON
of the extraction reply (`none` = client error or undecodable reply). -/
structure ExtractorEnv where
  extractionReplyParsed : String → Option Json
  storeCommitFails : Bool
  now : Nat

/-- `HighlightsExtractor.extract_highlights_from_conversation`
(`highlights.py` lines 119-162): gate, re-fetch of the conversation, transcript
formatting, then the LLM extraction. -/
def extract_highlights_from_conversation (env : ExtractorEnv) (db : DB)
    (conversation_id : Nat) : Option ExtractResult :=
  if !(should_extract_highlights db conversation_id) then none
  else
    match db.conversations.find? (fun c => c.id == conversation_id) with
    | none => none
    | some conversation =>
      if conversation.messages.isEmpty then none
      else
        extract_with_llm
          (env.extractionReplyParsed (format_conversation_for_analysis conversation.messages))

/-- Binding a JSON value to the `unstructured_notes` Text column: strings bind
as themselves, null as NULL; a structured value cannot be bound as a text
parameter and makes the write fail (an exception `store_highlights` catches). -/
def bindText : Json → Except String (Option String)
  | .str s => .ok (some s)
  | .null => .ok none
  | _ => .error "unsupported parameter type for a Text column"

/-- `HighlightsExtractor.store_highlights` (`highlights.py` lines 244-279):
update the existing row for the conversation if there is one, otherwise insert
a new row (whose `Highlight.__init__` re-validates the structured data and
whose `extracted_at` defaults to now); any exception rolls back and returns
false. -/
def store_highlights (env : ExtractorEnv) (db : DB) (conversation_id user_id : Nat)
    (highlights : ExtractResult) : DB × Bool :=
  if env.storeCommitFails then (db, false)
  else
    match bindText highlights.2 with
    | .error _ => (db, false)
    | .ok notes =>
      match db.highlights.find? (fun h => h.conversation_id == conversation_id) with
      | some _ =>
          ({ db with highlights := db.highlights.map (fun h =>
              if h.conversation_id == conversation_id then
                { h with structured_data := some highlights.1,
                         unstructured_notes := notes,
                         extracted_at := env.now }
              else h) }, true)
      | none =>
          match validate_structured_data (.obj highlights.1) with
          | .error _ => (db, false)
          | .ok _ =>
              ({ db with highlights := db.highlights ++
                  [⟨user_id, conversation_id, some highlights.1, notes, env.now⟩] }, true)

/-- `HighlightsExtractor.process_conversation` (`highlights.py` lines 281-319):
fetch the conversation, extract, store; false whenever any stage yields
nothing. -/
def process_conversation (env : ExtractorEnv) (db : DB) (conversation_id : Nat) :
    DB × Bool :=
  match db.conversations.find? (fun c => c.id == conversation_id) with
  | none => (db, false)
  | some conversation =>
    match extract_highlights_from_conversation env db conversation_id with
    | none => (db, false)
    | some highlights => store_highlights env db conversation_id conversation.user_id highlights

/-- The recency ordering used by `get_user_highlights_summary`:
`order_by(Highlight.extracted_at.desc())`. -/
def byRecency (a b : Highlight) : Prop := b.extracted_at ≤ a.extracted_at

instance : DecidableRel byRecency := fun a b => Nat.decLe b.extracted_at a.extracted_at

instance : IsTotal Highlight byRecency :=
  ⟨fun a b => Nat.le_total b.extracted_at a.extracted_at⟩

instance : IsTrans Highlight byRecency :=
  ⟨fun _ _ _ h1 h2 => Nat.le_trans h2 h1⟩

/-- The highlight rows of one user, ordered by extraction time descending
(`highlights.py` lines 375-377). -/
def sortedUserHighlights (db : DB) (user_id : Nat) : List Highlight :=
  (db.highlights.filter (fun h => h.user_id == user_id)).insertionSort byRecency

/-- One step of the structured-data merge (`highlights.py` lines 394-398): a
value that is not `None` is adopted for its key unless the key was already
consolidated. -/
def insertIfAbsent (m : List (String × Json)) (k : String) (v : Json) :
    List (String × Json) :=
  if containsKey m k then m else m ++ [(k, v)]

/-- The inner `for key, value in highlight.structured_data.items()` loop. -/
def mergePairs (acc : List (String × Json)) (pairs : List (String × Json)) :
    List (String × Json) :=
  pairs.foldl (fun m p => if p.2.isNull then m else insertIfAbsent m p.1 p.2) acc

/-- One iteration of the main loop of `get_user_highlights_summary`
(`highlights.py` lines 387-398): collect the conversation id, collect the
stripped note when non-empty, and merge the structured data first-wins. -/
def consolidateStep (acc : List (String × Json) × List String × List Nat)
    (h : Highlight) : List (String × Json) × List String × List Nat :=
  let conversation_ids := acc.2.2 ++ [h.conversation_id]
  let all_notes := match h.unstructured_notes with
    | some s => if pyStrip s ≠ "" then acc.2.1 ++ [pyStrip s] else acc.2.1
    | none => acc.2.1
  let consolidated := match h.structured_data with
    | some sd => mergePairs acc.1 sd
    | none => acc.1
  (consolidated, all_notes, conversation_ids)

/-- The main loop of `get_user_highlights_summary` over the recency-ordered
highlights. -/
def consolidateHighlights (highlights : List Highlight) :
    List (String × Json) × List String × List Nat :=
  highlights.foldl consolidateStep ([], [], [])

/-- The dict returned by `get_user_highlights_summary`; the empty-input branch
omits `last_updated` and `total_highlights` (modelled as `none`). -/
structure HighlightsSummary where
  structured_data : List (String × Json)
  unstructured_notes : String
  source_conversations : List Nat
  last_updated : Option Nat
  total_highlights : Option Nat

/-- `HighlightsExtractor.get_user_highlights_summary` (`highlights.py`
lines 361-412). -/
def get_user_highlights_summary (db : DB) (user_id : Nat) : HighlightsSummary :=
  let highlights := sortedUserHighlights db user_id
  if highlights.isEmpty then ⟨[], "", [], none, none⟩
  else
    let r := consolidateHighlights highlights
    { structured_data := r.1
      unstructured_notes := if r.2.1.isEmpty then "" else String.intercalate " | " r.2.1
      source_conversations := r.2.2
      last_updated := highlights.head?.map (fun h => h.extracted_at)
      total_highlights := some highlights.length }

/-- Spec-side view: the structured pairs a highlight contributes. -/
def highlightPairs (h : Highlight) : List (String × Json) :=
  h.structured_data.getD []

/-- Spec-side view: the first value for field `k` that is not null, scanning the
given highlights in order. -/
def firstNonNullValue (highlights : List Highlight) (k : String) : Option Json :=
  ((((highlights.map highlightPairs).flatten).filter
      (fun p => p.1 == k && !p.2.isNull)).head?).map Prod.snd

/-- Spec-side view: the stripped non-empty notes, in the given order. -/
def recencyNotes (highlights : List Highlight) : List String :=
  highlights.filterMap (fun h =>
    match h.unstructured_notes with
    | some s => if pyStrip s ≠ "" then some (pyStrip s) else none
    | none => none)

/-! ## Raw data and context assembly (`src/memory/raw_data.py`,
`src/core/context_assembly.py`) -/

/-- The `user_profile` dict built by `RawDataLoader.load_user_data`
(`raw_data.py` lines 28-34); `goals or []` and `preferences or {}` turn NULL
columns into empty containers. -/
structure UserProfile where
  age : Option Int
  gender : Option String
  location : Option String
  goals : List String
  preferences : List (String × String)

/-- The `recent_metrics` mapping: a key is present exactly when the window
query returned rows for that metric type (`raw_data.py` lines 40-51).  Metric
values are floats in the source; their arithmetic is irrelevant to every claim
and they are modelled as integers. -/
structure RecentMetrics where
  steps : Option (List Int)
  sleep_hours : Option (List Int)
  heart_rate : Option (List Int)

/-- Python truthiness of the `recent_metrics` dict. -/
def RecentMetrics.isEmptyDict (m : RecentMetrics) : Bool :=
  m.steps.isNone && m.sleep_hours.isNone && m.heart_rate.isNone

/-- The non-empty return value of `load_user_data`; the function otherwise
returns the empty dict, modelled as `none` at the call sites. -/
structure RawDataVal where
  user_profile : UserProfile
  recent_metrics : RecentMetrics

/-- An insight as loaded by `ContextAssembler.load_insights`; confidence is a
float in the source, modelled as an integer. -/
structure Insight where
  category : String
  finding : String
  timeframe : String
  confidence : Int
  extra_data : Option Json

/-- The `external` dict of `load_external_data`: a weather payload when a row
exists, otherwise empty. -/
def ExternalData := Option Json

/-- A knowledge-base entry as loaded by `load_knowledge`. -/
structure KnowledgeEntry where
  topic : String
  content : String
  source : String

/-- The context dict assembled by `assemble_full_context`
(`context_assembly.py` lines 420-428). -/
structure AssembledContext where
  user_id : Nat
  raw_data : Option RawDataVal
  insights : List Insight
  highlights : HighlightsSummary
  external_data : ExternalData
  knowledge : List KnowledgeEntry
  user_preferences : List (String × String)

/-- The collaborator outcomes seen by one context-assembly call: the user row,
and the result of each storage query (`.error` models a raised exception). -/
structure AssemblyEnv where
  userRow : Option UserProfile
  metricsOutcome : Except String RecentMetrics
  insightsOutcome : Except String (List Insight)
  highlightsFailure : Option String
  externalOutcome : Except String ExternalData
  knowledgeOutcome : Except String (List KnowledgeEntry)

/-- `RawDataLoader.load_user_data` (`raw_data.py` lines 20-65): a missing user
returns the empty dict, and the surrounding `except Exception` turns any query
failure into the empty dict as well — this loader never raises. -/
def load_user_data (env : AssemblyEnv) : Option RawDataVal :=
  match env.userRow with
  | none => none
  | some user =>
    match env.metricsOutcome with
    | .error _ => none
    | .ok metrics => some ⟨user, metrics⟩

/-- `ContextAssembler.load_highlights` (`context_assembly.py` lines 355-365):
delegates to `get_user_highlights_summary`; a storage failure propagates as an
exception. -/
def load_highlights (env : AssemblyEnv) (db : DB) (user_id : Nat) :
    Except String HighlightsSummary :=
  match env.highlightsFailure with
  | some e => .error e
  | none => .ok (get_user_highlights_summary db user_id)

/-- `ContextAssembler.assemble_full_context` (`context_assembly.py`
lines 408-428): load the layers in order — raw data, insights, highlights,
external data, knowledge — with no exception handling of its own, so the first
layer failure after raw data propagates to the caller. -/
def assemble_full_context (env : AssemblyEnv) (db : DB) (user_id : Nat) :
    Except String AssembledContext := do
  let raw_data := load_user_data env
  let insights ← env.insightsOutcome
  let highlights ← load_highlights env db user_id
  let external_data ← env.externalOutcome
  let knowledge ← env.knowledgeOutcome
  return { user_id := user_id
           raw_data := raw_data
           insights := insights
           highlights := highlights
           external_data := external_data
           knowledge := knowledge
           user_preferences := match raw_data with
             | some r => r.user_profile.preferences
             | none => [] }

/-! ## Prompt sections (`src/core/context_assembly.py`, section classes) -/

/-- Python `repr` of a list of numbers, as interpolated by the f-strings of
`HealthDataSection`. -/
def pyListRepr (xs : List Int) : String :=
  "[" ++ String.intercalate ", " (xs.map toString) ++ "]"

/-- The `sum(xs) / len(xs) if xs else 0` averages of `HealthDataSection`,
over the integer-modelled metric values. -/
def avgOf (xs : List Int) : Int :=
  if xs.isEmpty then 0 else xs.sum / xs.length

/-- The body lines of `HealthDataSection._generate_content`
(`context_assembly.py` lines 83-113) for a non-empty `raw_data` dict. -/
def healthDataLines (rd : RawDataVal) : List String :=
  (if rd.recent_metrics.isEmptyDict then []
   else
     ["Recent Activity Summary:"] ++
     (match rd.recent_metrics.steps with
      | some steps =>
          ["- Daily steps (last " ++ toString steps.length ++ " days): " ++
           pyListRepr steps ++ " (avg: " ++ toString (avgOf steps) ++ ")"]
      | none => []) ++
     (match rd.recent_metrics.sleep_hours with
      | some sleep =>
          ["- Sleep duration (last " ++ toString sleep.length ++ " nights): " ++
           pyListRepr sleep ++ " hours (avg: " ++ toString (avgOf sleep) ++ "h)"]
      | none => []) ++
     (match rd.recent_metrics.heart_rate with
      | some hr =>
          ["- Resting heart rate (recent): " ++ pyListRepr hr ++ " bpm (avg: " ++
           toString (avgOf hr) ++ ")"]
      | none => [])) ++
  ["\nUser Profile:",
   "- Age: " ++ (match rd.user_profile.age with
     | some a => toString a
     | none => "None"),
   "- Goals: " ++ String.intercalate ", " rd.user_profile.goals] ++
  (match rd.user_profile.location with
   | some loc => if loc = "" then [] else ["- Location: " ++ loc]
   | none => [])

/-- `HealthDataSection._generate_content` (`context_assembly.py`
lines 77-114): the falsy-`raw_data` branch emits the header plus the fixed
fallback sentence; otherwise the header plus the joined body lines. -/
def healthDataContent (raw_data : Option RawDataVal) : String :=
  match raw_data with
  | none => "CURRENT HEALTH DATA:\nNo recent health data available."
  | some rd => "CURRENT HEALTH DATA:\n" ++ String.intercalate "\n" (healthDataLines rd)

/-- `PromptSection.generate` (`context_assembly.py` lines 34-38): a disabled
section renders as the empty string. -/
def promptSectionGenerate (enabled : Bool) (content : String) : String :=
  if enabled then content else ""

/-- The health-data section rendered through `PromptSection.generate`. -/
def healthDataGenerate (enabled : Bool) (ctx : AssembledContext) : String :=
  promptSectionGenerate enabled (healthDataContent ctx.raw_data)

/-! ## Conversation orchestrator (`src/core/conversation_orchestrator.py`) -/

/-- The nodes registered by `ConversationOrchestrator._build_workflow`
(`conversation_orchestrator.py` lines 60-65). -/
def workflowNodes : List String :=
  ["load_context", "build_system_prompt", "generate_response",
   "update_conversation", "trigger_highlights"]

/-- The edges registered by `_build_workflow` (lines 68-73).  Every edge is an
unconditional `add_edge`; no conditional edge is registered anywhere. -/
def workflowEdges : List (String × String) :=
  [("load_context", "build_system_prompt"),
   ("build_system_prompt", "generate_response"),
   ("generate_response", "update_conversation"),
   ("update_conversation", "trigger_highlights"),
   ("trigger_highlights", "END")]

/-- The entry point set by `workflow.set_entry_point` (line 68). -/
def workflowEntryPoint : String := "load_context"

/-- The unique successor of a node in the compiled graph. -/
def nextNode (n : String) : Option String :=
  (workflowEdges.find? (fun e => e.1 == n)).map Prod.snd

/-- The node sequence an invocation traverses, starting from `n` (with fuel,
ending when a node has no successor). -/
def workflowPath : Nat → String → List String
  | 0, n => [n]
  | fuel + 1, n =>
    n :: (match nextNode n with
          | some m => workflowPath fuel m
          | none => [])

/-- The exception a `self.llm_client.chat` call can raise, as distinguished by
`_generate_response`: an `LLMError` (or subclass), or any other exception.
`str()` of an `LLMError` is its message. -/
inductive GenerateExc where
  | llm (e : LLMExc)
  | other (msg : String)

/-- The `ConversationState` TypedDict (`conversation_orchestrator.py`
lines 29-39).  The `assembled_context` slot starts as the empty dict in the
source and is always written by the first node before any read; it is modelled
with a placeholder initial value of the same shape. -/
structure ConversationState where
  user_id : Nat
  user_message : String
  conversation_history : List ChatMsg
  conversation_id : Option Nat
  assembled_context : AssembledContext
  system_prompt : String
  response : String
  error : Option String
  should_update_memory : Bool

/-- The collaborator outcomes of one orchestrated turn.  `promptOf` models
`ContextAssembler.build_system_prompt`, which reads the wall clock inside
`ExternalContextSection` and is therefore an environment function of the
context; `llmOutcome` is the result of the single `llm_client.chat` call;
`persistFailure` is a storage exception raised while saving the turn;
`nowIso` is the timestamp string written into the message records. -/
structure OrchestratorEnv where
  assembly : AssemblyEnv
  promptOf : AssembledContext → String
  llmOutcome : Except GenerateExc String
  persistFailure : Option String
  extractor : ExtractorEnv
  nowIso : String

/-- The minimal fallback context of `_load_full_context`
(`conversation_orchestrator.py` lines 98-106): every layer empty. -/
def fallbackContext (user_id : Nat) : AssembledContext :=
  { user_id := user_id
    raw_data := none
    insights := []
    highlights := ⟨[], "", [], none, none⟩
    external_data := none
    knowledge := []
    user_preferences := [] }

/-- `ConversationOrchestrator._load_full_context` (lines 77-108): ask the
assembler for the full context; on any exception record the error on the state
and substitute the minimal fallback context.  (`get_conversation_context` also
builds a prompt whose value this node discards.) -/
def load_full_context (env : OrchestratorEnv) (db : DB) (st : ConversationState) :
    ConversationState :=
  match assemble_full_context env.assembly db st.user_id with
  | .ok ctx => { st with assembled_context := ctx }
  | .error e =>
      { st with error := some ("Failed to load user context: " ++ e),
                assembled_context := fallbackContext st.user_id }

/-- `ConversationOrchestrator._build_system_prompt` (lines 110-133): build the
prompt from the assembled context.  (The `except` fallback to a hardcoded
prompt is unreachable here because the modelled builder is total.) -/
def build_system_prompt_node (env : OrchestratorEnv) (st : ConversationState) :
    ConversationState :=
  { st with system_prompt := env.promptOf st.assembled_context }

/-- The fixed apology substituted for the response on an `LLMError`
(`conversation_orchestrator.py` line 158). -/
def llmErrorApology : String :=
  "I\x27m sorry, I\x27m having trouble processing your request right now. Please try again in a moment."

/-- The fixed apology substituted for the response on any other exception
(line 162). -/
def unexpectedErrorApology : String :=
  "I apologize, but I encountered an unexpected error. Please try again."

/-- `ConversationOrchestrator._generate_response` (lines 135-165): on success
store the text and clear the error slot; on an `LLMError` or any other
exception substitute the matching apology and store `str(e)` in the error
slot.  The node never leaves the response slot empty on a failure. -/
def generate_response (env : OrchestratorEnv) (st : ConversationState) :
    ConversationState :=
  match env.llmOutcome with
  | .ok text => { st with response := text, error := none }
  | .error (.llm e) => { st with response := llmErrorApology, error := some e.message }
  | .error (.other m) => { st with response := unexpectedErrorApology, error := some m }

/-- The shared tail of `_update_conversation` (lines 206-230): append the user
and assistant turns to the resolved conversation, commit, and record the
conversation id on the state. -/
def append_turns (env : OrchestratorEnv) (db : DB) (st : ConversationState)
    (conversation : Conversation) : ConversationState × DB :=
  let msgs := conversation.messages ++
    [⟨"user", st.user_message, env.nowIso⟩, ⟨"assistant", st.response, env.nowIso⟩]
  ({ st with conversation_id := some conversation.id, should_update_memory := true },
   { db with conversations := db.conversations.map (fun c =>
       if c.id == conversation.id then { c with messages := msgs } else c) })

/-- `ConversationOrchestrator._update_conversation` (lines 167-240): resolve
the target conversation (by supplied id, else the active conversation of the
user, else a fresh one), append the user and assistant turns, commit.  A
storage failure — or a supplied id that matches no row, which crashes the
attribute access on `None` — is caught: the error slot records the failure,
`should_update_memory` stays false and the database is left as the rollback
left it. -/
def update_conversation (env : OrchestratorEnv) (db : DB) (st : ConversationState) :
    ConversationState × DB :=
  match env.persistFailure with
  | some msg =>
      ({ st with error := some ("Failed to save conversation: " ++ msg),
                 should_update_memory := false }, db)
  | none =>
    match st.conversation_id with
    | some cid =>
        match db.conversations.find? (fun c => c.id == cid) with
        | none =>
            ({ st with error := some ("Failed to save conversation: " ++
                         "NoneType object has no attribute messages"),
                       should_update_memory := false }, db)
        | some conversation => append_turns env db st conversation
    | none =>
        match db.conversations.find? (fun c => c.user_id == st.user_id && c.status == "active") with
        | some conversation => append_turns env db st conversation
        | none =>
            let newConv : Conversation :=
              { id := db.nextConvId
                user_id := st.user_id
                messages := [⟨"user", st.user_message, env.nowIso⟩,
                             ⟨"assistant", st.response, env.nowIso⟩]
                status := "active" }
            ({ st with conversation_id := some newConv.id, should_update_memory := true },
             { db with conversations := db.conversations ++ [newConv],
                       nextConvId := db.nextConvId + 1 })

/-- `ConversationOrchestrator._trigger_highlights_extraction` (lines 242-281):
only runs when the persist step succeeded and produced a conversation id; all
extraction failures are swallowed and the state is returned unchanged. -/
def trigger_highlights_extraction (env : OrchestratorEnv) (db : DB)
    (st : ConversationState) : ConversationState × DB :=
  if !st.should_update_memory then (st, db)
  else
    match st.conversation_id with
    | none => (st, db)
    | some cid => (st, (process_conversation env.extractor db cid).1)

/-- The result dict of `ConversationOrchestrator.chat` (lines 318-323). -/
structure ChatResult where
  response : String
  conversation_id : Option Nat
  error : Option String
  user_id : Nat

/-- The initial state built by `chat` (lines 301-311); the dummy
`assembled_context` models the empty dict and is overwritten by the first node
before any read. -/
def initState (user_id : Nat) (user_message : String) (conversation_id : Option Nat)
    (conversation_history : List ChatMsg) : ConversationState :=
  { user_id := user_id
    user_message := user_message
    conversation_history := conversation_history
    conversation_id := conversation_id
    assembled_context := fallbackContext user_id
    system_prompt := ""
    response := ""
    error := none
    should_update_memory := false }

/-- `ConversationOrchestrator.chat` (lines 283-335): initialise the state and
run the compiled workflow — the five nodes in their fixed edge order — then
project the result fields.  One invocation performs exactly one pass. -/
def chat (env : OrchestratorEnv) (db : DB) (user_id : Nat) (user_message : String)
    (conversation_id : Option Nat) (conversation_history : List ChatMsg) :
    ChatResult × DB :=
  let st0 := initState user_id user_message conversation_id conversation_history
  let st1 := load_full_context env db st0
  let st2 := build_system_prompt_node env st1
  let st3 := generate_response env st2
  let r4 := update_conversation env db st3
  let r5 := trigger_highlights_extraction env r4.2 r4.1
  (⟨r5.1.response, r5.1.conversation_id, r5.1.error, user_id⟩, r5.2)

/-! ## Spec-side predicates -/

/-- Every key of a structured-data map lies in the schema vocabulary. -/
def keysSubset (sdf : List (String × Json)) : Prop :=
  ∀ k ∈ sdf.map Prod.fst, k ∈ structuredFieldNames

instance (sdf : List (String × Json)) : Decidable (keysSubset sdf) := by
  unfold keysSubset; infer_instance

/-- A stored highlight row whose structured data, when present, has only
schema keys. -/
def highlightKeysOk (h : Highlight) : Prop :=
  ∀ sdf, h.structured_data = some sdf → keysSubset sdf

/-! ## Concrete instances used for evaluation -/

/-- An extractor environment whose model reply never parses (the extraction
round trip fails) and whose commits succeed. -/
def idleExtractorEnv : ExtractorEnv :=
  { extractionReplyParsed := fun _ => none
    storeCommitFails := false
    now := 7 }

/-- An assembly environment in which every storage query succeeds and the user
row is absent. -/
def okAssemblyEnv : AssemblyEnv :=
  { userRow := none
    metricsOutcome := .ok ⟨none, none, none⟩
    insightsOutcome := .ok []
    highlightsFailure := none
    externalOutcome := .ok none
    knowledgeOutcome := .ok [] }

/-- A concrete user profile row. -/
def profileP : UserProfile :=
  { age := some 30
    gender := none
    location := some "Tel Aviv"
    goals := ["better_sleep"]
    preferences := [] }

/-- The empty database. -/
def dbEmpty : DB := { conversations := [], highlights := [], nextConvId := 1 }

/-- An orchestrator environment whose model client always raises a generic
provider error. -/
def envC1 : OrchestratorEnv :=
  { assembly := okAssemblyEnv
    promptOf := fun _ => ""
    llmOutcome := .error (.llm ⟨.llmError, "Claude API error: provider failure", "claude"⟩)
    persistFailure := none
    extractor := idleExtractorEnv
    nowIso := "2026-01-01T00:00:00" }

/-- An eight-message transcript of an active conversation (four exchanges). -/
def msgsC5 : List StoredMessage :=
  [⟨"user", "How did I sleep last night?", "t1"⟩,
   ⟨"assistant", "You slept well.", "t2"⟩,
   ⟨"user", "What about my steps yesterday?", "t3"⟩,
   ⟨"assistant", "You walked a lot.", "t4"⟩,
   ⟨"user", "Should I exercise outside today?", "t5"⟩,
   ⟨"assistant", "Yes, the weather is fine.", "t6"⟩,
   ⟨"user", "What is a good time for a walk?", "t7"⟩,
   ⟨"assistant", "The morning works best.", "t8"⟩]

/-- A database holding one active conversation with eight stored messages. -/
def dbC5 : DB :=
  { conversations := [{ id := 1, user_id := 1, messages := msgsC5, status := "active" }]
    highlights := []
    nextConvId := 2 }

/-- An orchestrator environment whose model call succeeds. -/
def envC5 : OrchestratorEnv :=
  { assembly := okAssemblyEnv
    promptOf := fun _ => ""
    llmOutcome := .ok "Take care!"
    persistFailure := none
    extractor := idleExtractorEnv
    nowIso := "2026-01-01T00:00:00" }

/-- An assembly environment whose insights query raises. -/
def envC6bad : AssemblyEnv :=
  { okAssemblyEnv with userRow := some profileP, insightsOutcome := .error "insights query failed" }

/-- An orchestrator environment built over the failing assembly environment. -/
def envC6orch : OrchestratorEnv :=
  { envC1 with assembly := envC6bad }

/-- An assembly environment whose metrics query raises. -/
def envMetricsBad : AssemblyEnv :=
  { okAssemblyEnv with userRow := some profileP, metricsOutcome := .error "metrics query failed" }

/-- An assembly environment whose highlights load raises. -/
def envHighlightsBad : AssemblyEnv :=
  { okAssemblyEnv with highlightsFailure := some "highlights query failed" }

/-- An assembly environment whose external-data query raises. -/
def envExternalBad : AssemblyEnv :=
  { okAssemblyEnv with externalOutcome := .error "external query failed" }

/-- An assembly environment whose knowledge query raises. -/
def envKnowledgeBad : AssemblyEnv :=
  { okAssemblyEnv with knowledgeOutcome := .error "knowledge query failed" }

/-- A fresh conversation state, as `chat` initialises it for user 1. -/
def stC6 : ConversationState :=
  { user_id := 1
    user_message := "hi"
    conversation_history := []
    conversation_id := none
    assembled_context := fallbackContext 1
    system_prompt := ""
    response := ""
    error := none
    should_update_memory := false }

/-- The highlight pair of the consolidation example: an older highlight whose
allergies field is set, and a newer one whose allergies field is null but whose
goals field is set. -/
def dbC3 : DB :=
  { conversations := []
    highlights :=
      [{ user_id := 1, conversation_id := 10,
         structured_data := some [("allergies", Json.str "dairy")],
         unstructured_notes := some "prefers morning workouts",
         extracted_at := 1 },
       { user_id := 1, conversation_id := 11,
         structured_data := some [("allergies", Json.null),
                                  ("goals_mentioned", Json.arr [Json.str "run 5k"])],
         unstructured_notes := some "training for a race",
         extracted_at := 2 }]
    nextConvId := 1 }

/-- A database that already holds a highlight for conversation 1, together with
that conversation. -/
def dbC4 : DB :=
  { conversations :=
      [{ id := 1, user_id := 1,
         messages := [⟨"user", "I am allergic to dairy and I want to run a 5k.", "t1"⟩,
                      ⟨"assistant", "Noted!", "t2"⟩],
         status := "active" }]
    highlights :=
      [{ user_id := 1, conversation_id := 1,
         structured_data := some [("allergies", Json.str "dairy")],
         unstructured_notes := some "wants to run a 5k",
         extracted_at := 3 }]
    nextConvId := 2 }

/-- A parsed extraction reply whose structured slice holds the out-of-schema
key "pets". -/
def pfW : List (String × Json) :=
  [("structured_data", Json.obj [("pets", Json.null)]),
   ("unstructured_notes", Json.str "likes cats")]

/-- A well-formed parsed extraction reply using only schema keys, with a
placeholder "null" value. -/
def parsedW : Json :=
  Json.obj [("structured_data", Json.obj [("allergies", Json.str "dairy"),
                                          ("work_schedule", Json.str "null")]),
            ("unstructured_notes", Json.str "trains in the evening")]

/-- The extraction result `parsedW` cleans to. -/
def resW : ExtractResult :=
  ([("allergies", Json.str "dairy"), ("work_schedule", Json.null)],
   Json.str "trains in the evening")

/-! ## Theorems -/

/-- C7: the client failures are distinguishable by the caller into three
categories — a provider rate limit raises `LLMRateLimitError`, a connectivity
failure raises `LLMUnavailableError`, and API errors (authentication,
malformed request) as well as an empty reply raise the generic `LLMError` —
and the three classes are distinct, the two transient ones being subclasses of
the generic one. -/
theorem claude_error_taxonomy :
    (∀ m, claudeChat (.rateLimitError m) =
      .error ⟨.llmRateLimitError, "Claude rate limit exceeded", "claude"⟩) ∧
    (∀ m, claudeChat (.apiConnectionError m) =
      .error ⟨.llmUnavailableError, "Cannot connect to Claude API", "claude"⟩) ∧
    (∀ m, claudeChat (.apiError m) =
      .error ⟨.llmError, "Claude API error: " ++ m, "claude"⟩) ∧
    (claudeChat (.success []) =
      .error ⟨.llmError, "Unexpected error with Claude: Empty response from Claude", "claude"⟩) ∧
    (LLMExcClass.llmRateLimitError ≠ LLMExcClass.llmUnavailableError ∧
     LLMExcClass.llmRateLimitError ≠ LLMExcClass.llmError ∧
     LLMExcClass.llmUnavailableError ≠ LLMExcClass.llmError) ∧
    isSubclassOf .llmRateLimitError .llmError = true ∧
    isSubclassOf .llmUnavailableError .llmError = true ∧
    isSubclassOf .llmRateLimitError .llmUnavailableError = false ∧
    isSubclassOf .llmUnavailableError .llmRateLimitError = false :=
  ⟨fun _ => rfl, fun _ => rfl, fun _ => rfl, rfl,
   ⟨by decide, by decide, by decide⟩, rfl, rfl, rfl, rfl⟩

/-- C8: the `messages` array transmitted to the provider is exactly the
conversation history in its original order with the user message appended as
the final turn; the system prompt, when truthy, goes into the separate
`system` field and never changes the `messages` array. -/
theorem claude_chat_message_construction :
    (∀ (model um : String) (hist : Option (List ChatMsg)) (sp : Option String)
       (mt : Option Nat) (t : Option Int),
      (buildApiParams model um hist sp mt t).messages = hist.getD [] ++ [⟨"user", um⟩]) ∧
    (∀ (model um : String) (hist : Option (List ChatMsg)) (sp sp' : Option String)
       (mt : Option Nat) (t : Option Int),
      (buildApiParams model um hist sp mt t).messages =
        (buildApiParams model um hist sp' mt t).messages) ∧
    (∀ (model um s : String) (hist : Option (List ChatMsg)) (mt : Option Nat) (t : Option Int),
      (buildApiParams model um hist (some s) mt t).system =
        (if s = "" then none else some s)) ∧
    (∀ (model um : String) (hist : Option (List ChatMsg)) (mt : Option Nat) (t : Option Int),
      (buildApiParams model um hist none mt t).system = none) := by
  refine ⟨?_, ?_, ?_, ?_⟩
  · intro model um hist sp mt t
    cases hist <;> rfl
  · intro model um hist sp sp' mt t
    cases hist <;> rfl
  · intro model um s hist mt t
    rfl
  · intro model um hist mt t
    rfl

/-- Unfolding of the dict branch of `validate_structured_data`. -/
theorem validate_obj_eq (fields : List (String × Json)) :
    validate_structured_data (Json.obj fields) =
      (if ((fields.map Prod.fst).filter (fun k => !(structuredFieldNames.contains k))).isEmpty
       then .ok true
       else .error ("Unknown structured fields: " ++ String.intercalate ", "
         ((fields.map Prod.fst).filter (fun k => !(structuredFieldNames.contains k))))) := rfl

/-- C10: `validate_structured_data` is total and asymmetric at its boundary —
a non-dict input returns `False` without raising, and a dict input raises a
`ValueError` exactly when it has a key outside the schema vocabulary,
returning `True` otherwise. -/
theorem validate_structured_data_boundary :
    (∀ j : Json, j.isObj = false → validate_structured_data j = .ok false) ∧
    (∀ fields : List (String × Json),
      ((∃ msg, validate_structured_data (Json.obj fields) = .error msg) ↔
        ∃ k ∈ fields.map Prod.fst, k ∉ structuredFieldNames) ∧
      (validate_structured_data (Json.obj fields) = .ok true ↔
        ∀ k ∈ fields.map Prod.fst, k ∈ structuredFieldNames)) := by
  constructor
  · intro j hj
    cases j <;> first | rfl | simp [Json.isObj] at hj
  · intro fields
    rw [validate_obj_eq]
    by_cases h : ((fields.map Prod.fst).filter
        (fun k => !(structuredFieldNames.contains k))).isEmpty = true
    · have hmem : ∀ k ∈ fields.map Prod.fst, k ∈ structuredFieldNames := by
        simpa [List.isEmpty_iff] using h
      rw [if_pos h]
      refine ⟨⟨fun ⟨msg, hmsg⟩ => absurd hmsg (by simp), ?_⟩, ⟨fun _ => hmem, fun _ => rfl⟩⟩
      rintro ⟨k, hk, hknot⟩
      exact absurd (hmem k hk) hknot
    · have hmem : ∃ k ∈ fields.map Prod.fst, k ∉ structuredFieldNames := by
        have h' : (fields.map Prod.fst).filter
            (fun k => !(structuredFieldNames.contains k)) ≠ [] := by
          simpa [List.isEmpty_iff] using h
        obtain ⟨k, hk⟩ := List.exists_mem_of_ne_nil _ h'
        have := List.of_mem_filter hk
        exact ⟨k, List.mem_of_mem_filter hk, by simpa using this⟩
      rw [if_neg h]
      refine ⟨⟨fun _ => hmem, fun _ => ⟨_, rfl⟩⟩,
              ⟨fun hcontra => absurd hcontra (by simp), ?_⟩⟩
      intro hall
      obtain ⟨k, hk, hknot⟩ := hmem
      exact absurd (hall k hk) hknot

/-- C10 witness: a string input returns `False`; a dict with an out-of-schema
key raises; a dict with only schema keys returns `True`. -/
theorem validate_structured_data_boundary_witness :
    validate_structured_data (Json.str "oops") = .ok false ∧
    (∃ msg, validate_structured_data (Json.obj [("pets", Json.null)]) = .error msg) ∧
    validate_structured_data (Json.obj [("allergies", Json.null)]) = .ok true :=
  ⟨validate_structured_data_boundary.1 (Json.str "oops") rfl,
   (validate_structured_data_boundary.2 [("pets", Json.null)]).1.mpr
     ⟨"pets", by simp, by decide⟩,
   (validate_structured_data_boundary.2 [("allergies", Json.null)]).2.mpr
     (by decide)⟩

/-- C9 counterexample: rendering the health-data section against an empty
raw-data context does not yield exactly the bare fallback string — the section
prepends its header line. -/
theorem healthdata_empty_not_bare_fallback :
    healthDataContent none ≠ "No recent health data available." ∧
    healthDataContent none = "CURRENT HEALTH DATA:\nNo recent health data available." :=
  ⟨by decide, rfl⟩

/-- C9 amended: rendering the health-data section against a context whose
raw-data slice is empty yields exactly the fixed string
"CURRENT HEALTH DATA:\nNo recent health data available." — the section header
followed by the fallback sentence — not an empty string and not an
exception. -/
theorem healthdata_empty_renders_fallback (ctx : AssembledContext)
    (h : ctx.raw_data = none) :
    healthDataGenerate true ctx = "CURRENT HEALTH DATA:\nNo recent health data available." := by
  simp [healthDataGenerate, promptSectionGenerate, h, healthDataContent]

/-- C9 witness: the fallback context has an empty raw-data slice and renders
to the header plus fallback sentence. -/
theorem healthdata_empty_renders_fallback_witness :
    (fallbackContext 1).raw_data = none ∧
    healthDataGenerate true (fallbackContext 1) =
      "CURRENT HEALTH DATA:\nNo recent health data available." :=
  ⟨rfl, healthdata_empty_renders_fallback (fallbackContext 1) rfl⟩

/-- The dict branch of the validator, decided: either the map has only schema
keys and the call returns `True`, or it has an out-of-schema key and raises. -/
theorem validate_obj_cases (sdf : List (String × Json)) :
    (validate_structured_data (Json.obj sdf) = .ok true ∧ keysSubset sdf) ∨
    ((∃ msg, validate_structured_data (Json.obj sdf) = .error msg) ∧ ¬ keysSubset sdf) := by
  rw [validate_obj_eq]
  by_cases h : ((sdf.map Prod.fst).filter
      (fun k => !(structuredFieldNames.contains k))).isEmpty = true
  · left
    refine ⟨by rw [if_pos h], ?_⟩
    simpa [keysSubset, List.isEmpty_iff] using h
  · right
    refine ⟨⟨_, by rw [if_neg h]⟩, ?_⟩
    intro hall
    apply h
    simp only [List.isEmpty_iff, List.filter_eq_nil_iff]
    intro k hk
    simpa using hall k hk

/-- The keys of the cleaned structured map are exactly the original keys. -/
theorem cleaned_keys_eq (sdFields : List (String × Json)) :
    (sdFields.map (fun p => (p.1, cleanPlaceholder p.2))).map Prod.fst =
      sdFields.map Prod.fst := by
  simp [List.map_map, Function.comp]

/-- An accepted extraction result has only schema keys in its structured map. -/
theorem keysSubset_of_extractFromParsed (parsed : Json) (res : ExtractResult)
    (h : extractFromParsed parsed = some res) : keysSubset res.1 := by
  simp only [extractFromParsed, bind, Option.bind_eq_some] at h
  obtain ⟨fields, hfields, sd, hsd, notes, hnt, hmatch⟩ := h
  cases hval : validate_structured_data sd with
  | error msg => rw [hval] at hmatch; simp at hmatch
  | ok b =>
      rw [hval] at hmatch
      cases sd with
      | obj sdFields =>
          have hres : (sdFields.map (fun p => (p.1, cleanPlaceholder p.2)), notes) = res := by
            simpa using hmatch
          have hkeys : keysSubset sdFields := by
            rcases validate_obj_cases sdFields with ⟨_, hk⟩ | ⟨⟨msg, hmsg⟩, _⟩
            · exact hk
            · rw [hval] at hmsg; exact absurd hmsg (by simp)
          intro k hk
          rw [← hres] at hk
          have hk' : k ∈ sdFields.map Prod.fst := by
            simpa [cleaned_keys_eq] using hk
          exact hkeys k hk'
      | null => simp at hmatch
      | bool b2 => simp at hmatch
      | num n => simp at hmatch
      | str s => simp at hmatch
      | arr xs => simp at hmatch

/-- A reply whose structured slice has an out-of-schema key is discarded
whole. -/
theorem extractFromParsed_discards_unknown (pf sdf : List (String × Json))
    (hsd : getKey? pf "structured_data" = some (Json.obj sdf))
    (hbad : ¬ keysSubset sdf) :
    extractFromParsed (Json.obj pf) = none := by
  rcases validate_obj_cases sdf with ⟨_, hk⟩ | ⟨⟨msg, hmsg⟩, _⟩
  · exact absurd hk hbad
  · simp only [extractFromParsed, Json.asObj?, bind, hsd, Option.some_bind,
      Option.bind_eq_none]
    intro a ha
    rw [hmsg]

/-- An accepted conversation-level extraction has only schema keys. -/
theorem keysSubset_of_extract_highlights (env : ExtractorEnv) (db : DB) (cid : Nat)
    (res : ExtractResult)
    (h : extract_highlights_from_conversation env db cid = some res) :
    keysSubset res.1 := by
  unfold extract_highlights_from_conversation at h
  split at h
  · exact absurd h (by simp)
  · split at h
    · exact absurd h (by simp)
    · next conv hconv =>
        split at h
        · exact absurd h (by simp)
        · unfold extract_with_llm at h
          split at h
          · exact absurd h (by simp)
          · next parsed hparsed => exact keysSubset_of_extractFromParsed parsed res h

/-- `store_highlights` preserves the schema-key invariant provided the stored
result has only schema keys. -/
theorem store_preserves_keysOk (env : ExtractorEnv) (db : DB) (cid uid : Nat)
    (res : ExtractResult) (hres : keysSubset res.1)
    (hdb : ∀ h ∈ db.highlights, highlightKeysOk h) :
    ∀ h ∈ (store_highlights env db cid uid res).1.highlights, highlightKeysOk h := by
  unfold store_highlights
  split
  · exact hdb
  · split
    · exact hdb
    · next notes hnotes =>
        split
        · next hl hfound =>
            intro h' hh'
            simp only [List.mem_map] at hh'
            obtain ⟨h0, hh0, heq⟩ := hh'
            by_cases hc : (h0.conversation_id == cid) = true
            · rw [hc] at heq
              simp only [if_true] at heq
              intro sdf hsdf
              rw [← heq] at hsdf
              simp only at hsdf
              cases Option.some.inj hsdf
              exact hres
            · rw [Bool.not_eq_true] at hc
              rw [hc] at heq
              simp only [Bool.false_eq_true, if_false] at heq
              rw [← heq]
              exact hdb h0 hh0
        · split
          · exact hdb
          · intro h' hh'
            rcases List.mem_append.mp hh' with hmem | hmem
            · exact hdb h' hmem
            · have : h' = ⟨uid, cid, some res.1, notes, env.now⟩ := by
                simpa using hmem
              rw [this]
              intro sdf hsdf
              cases Option.some.inj hsdf
              exact hres

/-- `process_conversation` preserves the schema-key invariant over the stored
highlights. -/
theorem process_preserves_keysOk (env : ExtractorEnv) (db : DB) (cid : Nat)
    (hdb : ∀ h ∈ db.highlights, highlightKeysOk h) :
    ∀ h ∈ (process_conversation env db cid).1.highlights, highlightKeysOk h := by
  unfold process_conversation
  split
  · exact hdb
  · next conv hconv =>
      cases hex : extract_highlights_from_conversation env db cid with
      | none => simpa using hdb
      | some res =>
          simp only
          exact store_preserves_keysOk env db cid conv.user_id res
            (keysSubset_of_extract_highlights env db cid res hex) hdb

/-- C2: a structured-data map is accepted by validation exactly when every key
is in the schema vocabulary; a reply carrying any out-of-schema key is
discarded whole by the extractor; an accepted extraction carries only schema
keys; and processing a conversation preserves the invariant that every stored
highlight has only schema keys. -/
theorem structured_data_field_closure
    (sdf sdf2 pf : List (String × Json)) (parsed : Json) (res : ExtractResult)
    (env : ExtractorEnv) (db : DB) (cid : Nat)
    (hsd : getKey? pf "structured_data" = some (Json.obj sdf2))
    (hbad : ¬ keysSubset sdf2)
    (hacc : extractFromParsed parsed = some res)
    (hdb : ∀ h ∈ db.highlights, highlightKeysOk h) :
    ((∃ b, validate_structured_data (Json.obj sdf) = .ok b) ↔ keysSubset sdf) ∧
    extractFromParsed (Json.obj pf) = none ∧
    keysSubset res.1 ∧
    (∀ h ∈ (process_conversation env db cid).1.highlights, highlightKeysOk h) := by
  refine ⟨?_, extractFromParsed_discards_unknown pf sdf2 hsd hbad,
          keysSubset_of_extractFromParsed parsed res hacc,
          process_preserves_keysOk env db cid hdb⟩
  constructor
  · rintro ⟨b, hb⟩
    rcases validate_obj_cases sdf with ⟨_, hk⟩ | ⟨⟨msg, hmsg⟩, _⟩
    · exact hk
    · rw [hb] at hmsg; exact absurd hmsg (by simp)
  · intro hk
    rcases validate_obj_cases sdf with ⟨hok, _⟩ | ⟨_, hnk⟩
    · exact ⟨true, hok⟩
    · exact absurd hk hnk

/-- C2 witness: the validator accepts a schema-keyed map and the extractor
discards a reply with the unknown key "pets" while accepting a schema-keyed
reply; the empty store trivially satisfies the invariant and processing keeps
it. -/
theorem structured_data_field_closure_witness :
    getKey? pfW "structured_data" = some (Json.obj [("pets", Json.null)]) ∧
    ¬ keysSubset [("pets", Json.null)] ∧
    extractFromParsed parsedW = some resW ∧
    ((∃ b, validate_structured_data (Json.obj [("allergies", Json.str "dairy")]) = .ok b) ↔
      keysSubset [("allergies", Json.str "dairy")]) ∧
    extractFromParsed (Json.obj pfW) = none ∧
    keysSubset resW.1 ∧
    (∀ h ∈ (process_conversation idleExtractorEnv dbEmpty 1).1.highlights, highlightKeysOk h) := by
  have hsd : getKey? pfW "structured_data" = some (Json.obj [("pets", Json.null)]) := rfl
  have hbad : ¬ keysSubset [("pets", Json.null)] := by decide
  have hacc : extractFromParsed parsedW = some resW := rfl
  have hdb : ∀ h ∈ dbEmpty.highlights, highlightKeysOk h := by
    intro h hh; exact absurd hh (by simp [dbEmpty])
  have main := structured_data_field_closure [("allergies", Json.str "dairy")]
    [("pets", Json.null)] pfW parsedW resW idleExtractorEnv dbEmpty 1 hsd hbad hacc hdb
  exact ⟨hsd, hbad, hacc, main.1, main.2.1, main.2.2.1, main.2.2.2⟩

/-- On a model-client failure, `_generate_response` substitutes the matching
apology and records `str(e)` in the error slot. -/
theorem generate_response_of_error (env : OrchestratorEnv) (st : ConversationState)
    (e : GenerateExc) (h : env.llmOutcome = .error e) :
    ((generate_response env st).response = llmErrorApology ∨
     (generate_response env st).response = unexpectedErrorApology) ∧
    (generate_response env st).error ≠ none := by
  cases e with
  | llm e0 =>
      unfold generate_response
      rw [h]
      exact ⟨Or.inl rfl, by simp⟩
  | other m =>
      unfold generate_response
      rw [h]
      exact ⟨Or.inr rfl, by simp⟩

/-- `_update_conversation` never changes the response slot. -/
theorem update_conversation_fst_response (env : OrchestratorEnv) (db : DB)
    (st : ConversationState) :
    (update_conversation env db st).1.response = st.response := by
  unfold update_conversation
  split
  · rfl
  · split
    · split
      · rfl
      · rfl
    · split
      · rfl
      · rfl

/-- `_update_conversation` never clears a recorded error. -/
theorem update_conversation_fst_error (env : OrchestratorEnv) (db : DB)
    (st : ConversationState) (h : st.error ≠ none) :
    (update_conversation env db st).1.error ≠ none := by
  unfold update_conversation
  split
  · simp
  · split
    · split
      · simp
      · exact h
    · split
      · exact h
      · exact h

/-- `_trigger_highlights_extraction` returns the state unchanged. -/
theorem trigger_highlights_fst (env : OrchestratorEnv) (db : DB)
    (st : ConversationState) :
    (trigger_highlights_extraction env db st).1 = st := by
  unfold trigger_highlights_extraction
  split
  · rfl
  · split
    · rfl
    · rfl

/-- C1: whenever the model client raises, the turn result still carries one of
the two fixed apology strings (hence a non-empty response) and a non-null
error field — the workflow never aborts the turn on a model failure. -/
theorem chat_llm_failure_always_responds
    (env : OrchestratorEnv) (db : DB) (uid : Nat) (msg : String)
    (cid : Option Nat) (hist : List ChatMsg) (e : GenerateExc)
    (hllm : env.llmOutcome = .error e) :
    ((chat env db uid msg cid hist).1.response = llmErrorApology ∨
     (chat env db uid msg cid hist).1.response = unexpectedErrorApology) ∧
    (chat env db uid msg cid hist).1.response ≠ "" ∧
    (chat env db uid msg cid hist).1.error ≠ none := by
  have hgen := generate_response_of_error env
    (build_system_prompt_node env (load_full_context env db (initState uid msg cid hist)))
    e hllm
  have hresp : (chat env db uid msg cid hist).1.response =
      (update_conversation env db (generate_response env (build_system_prompt_node env
        (load_full_context env db (initState uid msg cid hist))))).1.response := by
    show (trigger_highlights_extraction env _ _).1.response = _
    rw [trigger_highlights_fst]
  have herr : (chat env db uid msg cid hist).1.error =
      (update_conversation env db (generate_response env (build_system_prompt_node env
        (load_full_context env db (initState uid msg cid hist))))).1.error := by
    show (trigger_highlights_extraction env _ _).1.error = _
    rw [trigger_highlights_fst]
  rw [hresp, herr, update_conversation_fst_response]
  refine ⟨hgen.1, ?_, update_conversation_fst_error env db _ hgen.2⟩
  rcases hgen.1 with h | h <;> rw [h] <;> decide

/-- C1 witness: a client that always raises a generic provider error still
yields an apologetic non-empty response and a non-null error. -/
theorem chat_llm_failure_always_responds_witness :
    envC1.llmOutcome = .error (.llm ⟨.llmError, "Claude API error: provider failure", "claude"⟩) ∧
    (((chat envC1 dbEmpty 1 "How did I sleep?" none []).1.response = llmErrorApology ∨
      (chat envC1 dbEmpty 1 "How did I sleep?" none []).1.response = unexpectedErrorApology) ∧
     (chat envC1 dbEmpty 1 "How did I sleep?" none []).1.response ≠ "" ∧
     (chat envC1 dbEmpty 1 "How did I sleep?" none []).1.error ≠ none) :=
  ⟨rfl, chat_llm_failure_always_responds envC1 dbEmpty 1 "How did I sleep?" none []
     (.llm ⟨.llmError, "Claude API error: provider failure", "claude"⟩) rfl⟩

/-- C6 counterexample: a failure raised while loading the insights layer alone
is not caught and replaced by an empty value — `assemble_full_context` fails
outright. -/
theorem assemble_full_context_not_layer_tolerant :
    assemble_full_context envC6bad dbEmpty 1 = .error "insights query failed" := rfl

/-- C6 amended: only the raw-data load is internally fault-tolerant — a missing
profile or a metrics failure yields empty raw data and assembly proceeds —
while a failure in the insights, highlights, external-data or knowledge layer
propagates out of `assemble_full_context` uncaught; when every layer succeeds
assembly returns the combined context; the orchestrator's load-context node is
what catches an assembly failure, substituting the minimal empty context and
recording the error. -/
theorem assembly_fault_model
    (envA envB envC envD envE envF envG : AssemblyEnv) (envH : OrchestratorEnv)
    (db : DB) (st : ConversationState) (uid : Nat)
    (eM eI eH eE eK eX : String)
    (insD insE insF insG : List Insight) (ext : ExternalData) (kn : List KnowledgeEntry)
    (hA : envA.userRow = none)
    (hB : envB.metricsOutcome = .error eM)
    (hC : envC.insightsOutcome = .error eI)
    (hD1 : envD.insightsOutcome = .ok insD) (hD2 : envD.highlightsFailure = some eH)
    (hE1 : envE.insightsOutcome = .ok insE) (hE2 : envE.highlightsFailure = none)
    (hE3 : envE.externalOutcome = .error eE)
    (hF1 : envF.insightsOutcome = .ok insF) (hF2 : envF.highlightsFailure = none)
    (hF3 : envF.externalOutcome = .ok ext) (hF4 : envF.knowledgeOutcome = .error eK)
    (hG1 : envG.insightsOutcome = .ok insG) (hG2 : envG.highlightsFailure = none)
    (hG3 : envG.externalOutcome = .ok ext) (hG4 : envG.knowledgeOutcome = .ok kn)
    (hH : assemble_full_context envH.assembly db st.user_id = .error eX) :
    load_user_data envA = none ∧
    load_user_data envB = none ∧
    assemble_full_context envC db uid = .error eI ∧
    assemble_full_context envD db uid = .error eH ∧
    assemble_full_context envE db uid = .error eE ∧
    assemble_full_context envF db uid = .error eK ∧
    assemble_full_context envG db uid = .ok
      { user_id := uid
        raw_data := load_user_data envG
        insights := insG
        highlights := get_user_highlights_summary db uid
        external_data := ext
        knowledge := kn
        user_preferences := match load_user_data envG with
          | some r => r.user_profile.preferences
          | none => [] } ∧
    ((load_full_context envH db st).assembled_context = fallbackContext st.user_id ∧
     (load_full_context envH db st).error =
       some ("Failed to load user context: " ++ eX)) := by
  refine ⟨?_, ?_, ?_, ?_, ?_, ?_, ?_, ?_⟩
  · simp [load_user_data, hA]
  · cases hrow : envB.userRow <;> simp [load_user_data, hrow, hB]
  · simp only [assemble_full_context, bind, Except.bind, hC]
  · simp only [assemble_full_context, bind, Except.bind, hD1, load_highlights, hD2]
  · simp only [assemble_full_context, bind, Except.bind, hE1, load_highlights, hE2, hE3]
  · simp only [assemble_full_context, bind, Except.bind, hF1, load_highlights, hF2, hF3, hF4]
  · simp only [assemble_full_context, bind, Except.bind, hG1, load_highlights, hG2, hG3, hG4,
      pure, Except.pure]
  · unfold load_full_context
    rw [hH]
    exact ⟨rfl, rfl⟩

/-- C6 witness: each failure mode exhibited on a concrete environment. -/
theorem assembly_fault_model_witness :
    (okAssemblyEnv.userRow = none ∧
     envMetricsBad.metricsOutcome = .error "metrics query failed" ∧
     envC6bad.insightsOutcome = .error "insights query failed" ∧
     envHighlightsBad.highlightsFailure = some "highlights query failed" ∧
     envExternalBad.externalOutcome = .error "external query failed" ∧
     envKnowledgeBad.knowledgeOutcome = .error "knowledge query failed" ∧
     assemble_full_context envC6orch.assembly dbEmpty stC6.user_id =
       .error "insights query failed") ∧
    load_user_data okAssemblyEnv = none ∧
    load_user_data envMetricsBad = none ∧
    assemble_full_context envC6bad dbEmpty 1 = .error "insights query failed" ∧
    assemble_full_context envHighlightsBad dbEmpty 1 = .error "highlights query failed" ∧
    assemble_full_context envExternalBad dbEmpty 1 = .error "external query failed" ∧
    assemble_full_context envKnowledgeBad dbEmpty 1 = .error "knowledge query failed" ∧
    assemble_full_context okAssemblyEnv dbEmpty 1 = .ok
      { user_id := 1
        raw_data := load_user_data okAssemblyEnv
        insights := []
        highlights := get_user_highlights_summary dbEmpty 1
        external_data := none
        knowledge := []
        user_preferences := match load_user_data okAssemblyEnv with
          | some r => r.user_profile.preferences
          | none => [] } ∧
    ((load_full_context envC6orch dbEmpty stC6).assembled_context =
       fallbackContext stC6.user_id ∧
     (load_full_context envC6orch dbEmpty stC6).error =
       some ("Failed to load user context: " ++ "insights query failed")) := by
  have main := assembly_fault_model okAssemblyEnv envMetricsBad envC6bad envHighlightsBad
    envExternalBad envKnowledgeBad okAssemblyEnv envC6orch dbEmpty stC6 1
    "metrics query failed" "insights query failed" "highlights query failed"
    "external query failed" "knowledge query failed" "insights query failed"
    [] [] [] [] none []
    rfl rfl rfl rfl rfl rfl rfl rfl rfl rfl rfl rfl rfl rfl rfl rfl rfl
  exact ⟨⟨rfl, rfl, rfl, rfl, rfl, rfl, rfl⟩, main⟩

/-- Storing highlights never touches the conversations table. -/
theorem store_highlights_conversations (env : ExtractorEnv) (db : DB)
    (cid uid : Nat) (res : ExtractResult) :
    (store_highlights env db cid uid res).1.conversations = db.conversations := by
  unfold store_highlights
  split
  · rfl
  · split
    · rfl
    · split
      · rfl
      · split
        · rfl
        · rfl

/-- Processing a conversation never touches the conversations table. -/
theorem process_conversation_conversations (env : ExtractorEnv) (db : DB) (cid : Nat) :
    (process_conversation env db cid).1.conversations = db.conversations := by
  unfold process_conversation
  split
  · rfl
  · split
    · rfl
    · exact store_highlights_conversations env db cid _ _

/-- The highlights-trigger node never touches the conversations table. -/
theorem trigger_highlights_snd_conversations (env : OrchestratorEnv) (db : DB)
    (st : ConversationState) :
    (trigger_highlights_extraction env db st).2.conversations = db.conversations := by
  unfold trigger_highlights_extraction
  split
  · rfl
  · split
    · rfl
    · exact process_conversation_conversations env.extractor db _

/-- Appending turns to a conversation preserves every status. -/
theorem append_turns_statuses (env : OrchestratorEnv) (db : DB)
    (st : ConversationState) (conversation : Conversation) :
    (append_turns env db st conversation).2.conversations.map (fun c => c.status) =
      db.conversations.map (fun c => c.status) := by
  unfold append_turns
  simp only [List.map_map]
  apply List.map_congr_left
  intro c _
  by_cases h : (c.id == conversation.id) = true <;> simp [Function.comp, h]

/-- The persist node either preserves every conversation status or appends one
new conversation with status "active". -/
theorem update_conversation_statuses (env : OrchestratorEnv) (db : DB)
    (st : ConversationState) :
    ((update_conversation env db st).2.conversations.map (fun c => c.status) =
      db.conversations.map (fun c => c.status)) ∨
    ((update_conversation env db st).2.conversations.map (fun c => c.status) =
      db.conversations.map (fun c => c.status) ++ ["active"]) := by
  unfold update_conversation
  split
  · left; rfl
  · split
    · split
      · left; rfl
      · left; exact append_turns_statuses env db st _
    · split
      · left; exact append_turns_statuses env db st _
      · right; simp

/-- C5 amended: the orchestrator makes no continue/stop decision — the compiled
workflow is the fixed linear chain load_context → build_system_prompt →
generate_response → update_conversation → trigger_highlights → END for every
input, and one `chat` pass never changes a conversation status (it can only
add a new conversation with status "active"), whatever the message content or
accumulated turn count. -/
theorem orchestrator_has_no_stop_decision (env : OrchestratorEnv) (db : DB)
    (uid : Nat) (msg : String) (cid : Option Nat) (hist : List ChatMsg) :
    workflowPath 8 workflowEntryPoint =
      ["load_context", "build_system_prompt", "generate_response",
       "update_conversation", "trigger_highlights", "END"] ∧
    ((chat env db uid msg cid hist).2.conversations.map (fun c => c.status) =
        db.conversations.map (fun c => c.status) ∨
     (chat env db uid msg cid hist).2.conversations.map (fun c => c.status) =
        db.conversations.map (fun c => c.status) ++ ["active"]) := by
  refine ⟨rfl, ?_⟩
  have hdb2 : (chat env db uid msg cid hist).2.conversations =
      (update_conversation env db (generate_response env (build_system_prompt_node env
        (load_full_context env db (initState uid msg cid hist))))).2.conversations := by
    show (trigger_highlights_extraction env _ _).2.conversations = _
    rw [trigger_highlights_snd_conversations]
  rw [hdb2]
  exact update_conversation_statuses env db _

/-- C5 counterexample: with the transcript at ten accumulated turns and the
last user message exactly "bye", the turn completes like any other — the
conversation keeps status "active" (nothing stops), its message count is the
full ten, and the result carries no error or stop signal. -/
theorem chat_bye_at_cap_stays_active :
    ((chat envC5 dbC5 1 "bye" (some 1) []).2.conversations.find?
        (fun c => c.id == 1)).map (fun c => c.status) = some "active" ∧
    ((chat envC5 dbC5 1 "bye" (some 1) []).2.conversations.find?
        (fun c => c.id == 1)).map (fun c => c.messages.length) = some 10 ∧
    (chat envC5 dbC5 1 "bye" (some 1) []).1.error = none :=
  ⟨rfl, rfl, rfl⟩

/-- Count after appending one element. -/
theorem countP_append_singleton {α : Type} (l : List α) (x : α) (p : α → Bool) :
    (l ++ [x]).countP p = l.countP p + (if p x then 1 else 0) := by
  simp [List.countP_append, List.countP_cons]

/-- The update branch of `store_highlights` preserves each conversation's
highlight count (it rewrites rows in place). -/
theorem countP_conversation_map (l : List Highlight) (cid : Nat)
    (sd : List (String × Json)) (notes : Option String) (now tgt : Nat) :
    (l.map (fun h => if h.conversation_id == cid then
        { h with structured_data := some sd, unstructured_notes := notes, extracted_at := now }
      else h)).countP (fun h => h.conversation_id == tgt) =
    l.countP (fun h => h.conversation_id == tgt) := by
  rw [List.countP_map]
  apply List.countP_congr
  intro h _
  by_cases hc : (h.conversation_id == cid) = true <;> simp [Function.comp, hc]

/-- Storing one extraction result keeps at most one highlight per
conversation. -/
theorem store_highlights_countP_le (env : ExtractorEnv) (db : DB) (cid uid : Nat)
    (res : ExtractResult) (tgt : Nat)
    (hcount : db.highlights.countP (fun h => h.conversation_id == tgt) ≤ 1) :
    (store_highlights env db cid uid res).1.highlights.countP
      (fun h => h.conversation_id == tgt) ≤ 1 := by
  unfold store_highlights
  split
  · exact hcount
  · split
    · exact hcount
    · split
      · rw [countP_conversation_map]
        exact hcount
      · next hfound =>
          split
          · exact hcount
          · rw [countP_append_singleton]
            split
            · next hp =>
                have htgt : cid = tgt := by simpa using hp
                have h0 : db.highlights.countP (fun h => h.conversation_id == tgt) = 0 := by
                  rw [List.countP_eq_zero]
                  intro a ha
                  have hnc := List.find?_eq_none.mp hfound a ha
                  simp only [beq_iff_eq] at hnc ⊢
                  rw [← htgt]
                  exact hnc
                rw [h0]
            · simpa using hcount

/-- C4: once a highlight exists for a conversation id, the eligibility gate is
false and processing that conversation again leaves the database unchanged and
reports no new extraction; moreover processing any conversation preserves the
at-most-one-highlight-per-conversation bound. -/
theorem highlight_extraction_idempotent
    (env env2 : ExtractorEnv) (db db2 : DB) (cid cid2 tgt : Nat)
    (hex : ∃ h ∈ db.highlights, h.conversation_id = cid)
    (hcount : db2.highlights.countP (fun h => h.conversation_id == tgt) ≤ 1) :
    should_extract_highlights db cid = false ∧
    process_conversation env db cid = (db, false) ∧
    (process_conversation env2 db2 cid2).1.highlights.countP
      (fun h => h.conversation_id == tgt) ≤ 1 := by
  have hfind : ∃ x, db.highlights.find? (fun h => h.conversation_id == cid) = some x := by
    rw [← Option.isSome_iff_exists, List.find?_isSome]
    obtain ⟨h0, hh0, hc⟩ := hex
    exact ⟨h0, hh0, by simp [hc]⟩
  obtain ⟨x, hx⟩ := hfind
  have hgate : should_extract_highlights db cid = false := by
    unfold should_extract_highlights
    rw [hx]
  have hextract : extract_highlights_from_conversation env db cid = none := by
    unfold extract_highlights_from_conversation
    rw [hgate]
    rfl
  have hproc : process_conversation env db cid = (db, false) := by
    unfold process_conversation
    cases hc2 : db.conversations.find? (fun c => c.id == cid) with
    | none => rfl
    | some conv => rw [hextract]
  refine ⟨hgate, hproc, ?_⟩
  unfold process_conversation
  split
  · exact hcount
  · cases hex2 : extract_highlights_from_conversation env2 db2 cid2 with
    | none => simpa using hcount
    | some res =>
        simp only
        exact store_highlights_countP_le env2 db2 cid2 _ res tgt hcount

/-- C4 witness: with a highlight already stored for conversation 1, the gate
returns false, reprocessing changes nothing, and the per-conversation count
stays at one. -/
theorem highlight_extraction_idempotent_witness :
    (∃ h ∈ dbC4.highlights, h.conversation_id = 1) ∧
    dbC4.highlights.countP (fun h => h.conversation_id == 1) ≤ 1 ∧
    should_extract_highlights dbC4 1 = false ∧
    process_conversation idleExtractorEnv dbC4 1 = (dbC4, false) ∧
    (process_conversation idleExtractorEnv dbC4 1).1.highlights.countP
      (fun h => h.conversation_id == 1) ≤ 1 := by
  have hex : ∃ h ∈ dbC4.highlights, h.conversation_id = 1 := by decide
  have hcount : dbC4.highlights.countP (fun h => h.conversation_id == 1) ≤ 1 := by decide
  have main := highlight_extraction_idempotent idleExtractorEnv idleExtractorEnv dbC4 dbC4
    1 1 1 hex hcount
  exact ⟨hex, hcount, main.1, main.2.1, main.2.2⟩

/-- Lookup in a one-step-extended dict. -/
theorem getKey?_cons (p : String × Json) (t : List (String × Json)) (k : String) :
    getKey? (p :: t) k = if (p.1 == k) = true then some p.2 else getKey? t k := by
  by_cases h : (p.1 == k) = true <;> simp [getKey?, List.find?_cons, h]

/-- A present key stays present under concatenation on the right. -/
theorem getKey?_append_of_some (m m' : List (String × Json)) (k : String) (v : Json)
    (h : getKey? m k = some v) : getKey? (m ++ m') k = some v := by
  induction m with
  | nil => simp [getKey?] at h
  | cons p t ih =>
      rw [List.cons_append, getKey?_cons]
      rw [getKey?_cons] at h
      by_cases hp : (p.1 == k) = true
      · rw [if_pos hp] at h ⊢; exact h
      · rw [if_neg hp] at h ⊢; exact ih h

/-- An absent key defers lookup to the right part of a concatenation. -/
theorem getKey?_append_of_none (m m' : List (String × Json)) (k : String)
    (h : getKey? m k = none) : getKey? (m ++ m') k = getKey? m' k := by
  induction m with
  | nil => rfl
  | cons p t ih =>
      rw [List.cons_append, getKey?_cons]
      rw [getKey?_cons] at h
      by_cases hp : (p.1 == k) = true
      · rw [if_pos hp] at h; exact absurd h (by simp)
      · rw [if_neg hp] at h ⊢; exact ih h

/-- `containsKey` is lookup success. -/
theorem containsKey_eq_isSome (m : List (String × Json)) (k : String) :
    containsKey m k = (getKey? m k).isSome := by
  induction m with
  | nil => rfl
  | cons p t ih =>
      rw [getKey?_cons]
      by_cases hp : (p.1 == k) = true
      · simp [containsKey, hp]
      · simp [containsKey, hp, ← ih]

/-- Folding one more pair into the consolidation. -/
theorem mergePairs_cons (m : List (String × Json)) (p : String × Json)
    (rest : List (String × Json)) :
    mergePairs m (p :: rest) =
      mergePairs (if p.2.isNull then m else insertIfAbsent m p.1 p.2) rest := rfl

/-- Consolidation over a concatenation folds left to right. -/
theorem mergePairs_append (m : List (String × Json)) (xs ys : List (String × Json)) :
    mergePairs m (xs ++ ys) = mergePairs (mergePairs m xs) ys := by
  simp [mergePairs, List.foldl_append]

/-- A consolidated key is never overwritten by later pairs. -/
theorem getKey?_mergePairs_some (pairs m : List (String × Json)) (k : String) (v : Json)
    (h : getKey? m k = some v) : getKey? (mergePairs m pairs) k = some v := by
  induction pairs generalizing m with
  | nil => exact h
  | cons p rest ih =>
      rw [mergePairs_cons]
      apply ih
      by_cases hnull : p.2.isNull = true
      · rw [if_pos hnull]; exact h
      · rw [if_neg hnull]
        unfold insertIfAbsent
        by_cases hcont : containsKey m p.1 = true
        · rw [if_pos hcont]; exact h
        · rw [if_neg hcont]; exact getKey?_append_of_some m _ k v h

/-- For an unconsolidated key, the merge adopts the first non-null value among
the remaining pairs. -/
theorem getKey?_mergePairs_none (pairs m : List (String × Json)) (k : String)
    (h : getKey? m k = none) :
    getKey? (mergePairs m pairs) k =
      ((pairs.filter (fun p => p.1 == k && !p.2.isNull)).head?).map Prod.snd := by
  induction pairs generalizing m with
  | nil => exact h
  | cons p rest ih =>
      rw [mergePairs_cons]
      by_cases hnull : p.2.isNull = true
      · rw [if_pos hnull]
        rw [ih m h]
        have hcond : (p.1 == k && !p.2.isNull) = false := by simp [hnull]
        simp [List.filter_cons, hcond]
      · rw [if_neg hnull]
        unfold insertIfAbsent
        by_cases hp : (p.1 == k) = true
        · have hcont : containsKey m p.1 = false := by
            rw [containsKey_eq_isSome]
            have : getKey? m p.1 = none := by
              have hk : p.1 = k := by simpa using hp
              rw [hk]; exact h
            simp [this]
          rw [if_neg (by simp [hcont])]
          have hsome : getKey? (m ++ [(p.1, p.2)]) k = some p.2 := by
            rw [getKey?_append_of_none m _ k h, getKey?_cons]
            rw [if_pos hp]
          rw [getKey?_mergePairs_some rest _ k p.2 hsome]
          have hcond : (p.1 == k && !p.2.isNull) = true := by simp [hp, hnull]
          simp [List.filter_cons, hcond]
        · have hcond : (p.1 == k && !p.2.isNull) = false := by simp [hp]
          have hstep : ∀ m', getKey? m' k = none → getKey? (mergePairs m' rest) k =
              ((rest.filter (fun p => p.1 == k && !p.2.isNull)).head?).map Prod.snd := ih
          by_cases hcont : containsKey m p.1 = true
          · rw [if_pos hcont, hstep m h]
            simp [List.filter_cons, hcond]
          · rw [if_neg hcont]
            have hnone : getKey? (m ++ [(p.1, p.2)]) k = none := by
              rw [getKey?_append_of_none m _ k h, getKey?_cons]
              rw [if_neg hp]
              rfl
            rw [hstep _ hnone]
            simp [List.filter_cons, hcond]

/-- The consolidation loop, decomposed over an arbitrary accumulator: the
structured map is the first-wins merge of all contributed pairs, the notes are
appended in order, and the conversation ids are collected in order. -/
theorem consolidate_foldl (hls : List Highlight)
    (acc : List (String × Json) × List String × List Nat) :
    hls.foldl consolidateStep acc =
      (mergePairs acc.1 ((hls.map highlightPairs).flatten),
       acc.2.1 ++ recencyNotes hls,
       acc.2.2 ++ hls.map (fun h => h.conversation_id)) := by
  induction hls generalizing acc with
  | nil =>
      obtain ⟨a, b, c⟩ := acc
      simp [mergePairs, recencyNotes]
  | cons h t ih =>
      obtain ⟨a, b, c⟩ := acc
      rw [List.foldl_cons, ih]
      have h1 : (consolidateStep (a, b, c) h).1 = mergePairs a (highlightPairs h) := by
        unfold consolidateStep highlightPairs
        cases h.structured_data <;> simp [mergePairs]
      have h2 : (consolidateStep (a, b, c) h).2.1 =
          b ++ (match h.unstructured_notes with
            | some s => if pyStrip s ≠ "" then [pyStrip s] else []
            | none => []) := by
        unfold consolidateStep
        cases hn : h.unstructured_notes with
        | none => simp
        | some s => by_cases hs : pyStrip s ≠ "" <;> simp [hs]
      have h3 : (consolidateStep (a, b, c) h).2.2 = c ++ [h.conversation_id] := rfl
      rw [h1, h2, h3]
      simp only [Prod.mk.injEq]
      refine ⟨?_, ?_, ?_⟩
      · rw [List.map_cons, List.flatten_cons, mergePairs_append]
      · rw [List.append_assoc]
        congr 1
        unfold recencyNotes
        rw [List.filterMap_cons]
        cases hn : h.unstructured_notes with
        | none => simp
        | some s => by_cases hs : pyStrip s ≠ "" <;> simp [hs]
      · rw [List.map_cons, List.append_assoc]
        rfl

/-- C3: for a user with stored highlights, the consolidated summary is built
from the highlights sorted by extraction time descending; for every field the
summary holds the first non-null value in that order (a newer null never
erases an older value), the notes are the stripped non-empty notes joined with
" | " in the same order, and the source conversations are listed in the same
order. -/
theorem consolidation_recency (db : DB) (uid : Nat)
    (hne : (sortedUserHighlights db uid).isEmpty = false) :
    List.Sorted byRecency (sortedUserHighlights db uid) ∧
    (∀ k, getKey? ((get_user_highlights_summary db uid).structured_data) k =
      firstNonNullValue (sortedUserHighlights db uid) k) ∧
    (get_user_highlights_summary db uid).unstructured_notes =
      String.intercalate " | " (recencyNotes (sortedUserHighlights db uid)) ∧
    (get_user_highlights_summary db uid).source_conversations =
      (sortedUserHighlights db uid).map (fun h => h.conversation_id) := by
  have hsummary : get_user_highlights_summary db uid =
      { structured_data := (consolidateHighlights (sortedUserHighlights db uid)).1
        unstructured_notes :=
          if (consolidateHighlights (sortedUserHighlights db uid)).2.1.isEmpty then ""
          else String.intercalate " | " (consolidateHighlights (sortedUserHighlights db uid)).2.1
        source_conversations := (consolidateHighlights (sortedUserHighlights db uid)).2.2
        last_updated := (sortedUserHighlights db uid).head?.map (fun h => h.extracted_at)
        total_highlights := some (sortedUserHighlights db uid).length } := by
    simp only [get_user_highlights_summary, hne, Bool.false_eq_true, if_false]
  have hfold := consolidate_foldl (sortedUserHighlights db uid) ([], [], [])
  refine ⟨List.sorted_insertionSort byRecency _, ?_, ?_, ?_⟩
  · intro k
    rw [hsummary]
    show getKey? (consolidateHighlights (sortedUserHighlights db uid)).1 k = _
    unfold consolidateHighlights
    rw [hfold]
    exact getKey?_mergePairs_none _ [] k rfl
  · rw [hsummary]
    show (if (consolidateHighlights (sortedUserHighlights db uid)).2.1.isEmpty then ""
      else String.intercalate " | " (consolidateHighlights (sortedUserHighlights db uid)).2.1) = _
    unfold consolidateHighlights
    rw [hfold]
    simp only [List.nil_append]
    by_cases hr : (recencyNotes (sortedUserHighlights db uid)).isEmpty = true
    · rw [if_pos hr]
      rw [List.isEmpty_iff] at hr
      rw [hr]
      rfl
    · rw [if_neg hr]
  · rw [hsummary]
    show (consolidateHighlights (sortedUserHighlights db uid)).2.2 = _
    unfold consolidateHighlights
    rw [hfold]
    simp

/-- C3 witness: with the older highlight setting allergies and the newer one
nulling allergies but setting goals, the summary keeps "dairy" for allergies,
takes the goals from the newer highlight, joins both notes newest-first, and
lists the source conversations newest-first. -/
theorem consolidation_recency_witness :
    (sortedUserHighlights dbC3 1).isEmpty = false ∧
    getKey? ((get_user_highlights_summary dbC3 1).structured_data) "allergies" =
      firstNonNullValue (sortedUserHighlights dbC3 1) "allergies" ∧
    getKey? ((get_user_highlights_summary dbC3 1).structured_data) "goals_mentioned" =
      firstNonNullValue (sortedUserHighlights dbC3 1) "goals_mentioned" ∧
    (get_user_highlights_summary dbC3 1).unstructured_notes =
      String.intercalate " | " (recencyNotes (sortedUserHighlights dbC3 1)) ∧
    getKey? ((get_user_highlights_summary dbC3 1).structured_data) "allergies" =
      some (Json.str "dairy") ∧
    getKey? ((get_user_highlights_summary dbC3 1).structured_data) "goals_mentioned" =
      some (Json.arr [Json.str "run 5k"]) ∧
    (get_user_highlights_summary dbC3 1).unstructured_notes =
      "training for a race | prefers morning workouts" := by
  have main := consolidation_recency dbC3 1 rfl
  exact ⟨rfl, main.2.1 "allergies", main.2.1 "goals_mentioned", main.2.2.1,
    rfl, rfl, rfl⟩

end Fitbit
